import Mathlib

/-!
Verification development for the MINI-RAG repository.

The repository ships a static frontend (`src/frontend/script.js`, containing two
near-duplicate versions of the same page glue) and prose describing a
retrieval-augmented-generation backend that is not implemented in the repo.

Part 1 embeds the frontend glue: the mutable module state (`uploadRole`,
`searchRole`, `selectedFile`) plus the DOM cells the handlers touch are a
`UIState`; each handler is a pure function from its inputs and the environment's
fetch outcome to a trace of `Step`s (DOM mutations, toasts, HTTP requests), and
`runSteps` folds a trace back into a state.  The canonical definitions follow
the second script version (after the separator); where the first version
differs only in message literals this is noted, and for `displayUploadResult`
(where the two versions render different fields) both versions are embedded.

Part 2 models, from the specification's words, the retrieval core that the
repository does not implement (vector index search under an access-tag filter,
role resolution, retrieve).
-/

namespace MiniRag

/-- A selected file as the handlers observe it: `name`, MIME `type`, `size`
in bytes (the fields of a JS `File` that `script.js` reads). -/
structure JSFile where
  name : String
  type : String
  size : Nat
  deriving DecidableEq, Repr

/-- Upload success body: `{filename, chunks_created, text_length, doc_type}`. -/
structure UploadData where
  filename : String
  chunks_created : Nat
  text_length : Nat
  doc_type : String
  deriving DecidableEq, Repr

/-- One entry of a query response's `sources` array. -/
structure SourceData where
  filename : String
  page : Option Nat
  similarity : ℚ
  deriving DecidableEq, Repr

/-- A form-data value: the selected file or a string field. -/
inductive FormValue where
  | file (f : JSFile)
  | str (s : String)
  deriving DecidableEq, Repr

/-- The body handed to `fetch`. -/
inductive RequestBody where
  | empty
  | json (fields : List (String × String))
  | form (fields : List (String × FormValue))
  deriving DecidableEq, Repr

/-- An HTTP request as issued by `fetch(url, {method, headers, body})`. -/
structure Request where
  url : String
  method : String
  headers : List (String × String)
  body : RequestBody
  deriving DecidableEq, Repr

/-- `API_BASE` of the second script version (the first version holds a
placeholder Railway URL; no claim depends on the literal). -/
def API_BASE : String := "https://mini-rag-mm0h.onrender.com"

/-- One observable step of a handler run: a toast, an HTTP request, or a DOM
mutation (`style.display` toggles, rendered answer/upload result, the
`setTimeout` reset is recorded as scheduled, not applied). -/
inductive Step where
  | toast (msg : String) (kind : String)
  | request (r : Request)
  | setLoading (visible : Bool)
  | setAnswer (visible : Bool)
  | renderAnswer (answer : String) (sources : List SourceData)
  | clearUploadResult
  | renderUploadResult (d : UploadData)
  | scheduleReset
  deriving DecidableEq, Repr

/-- The module-level mutable state plus the DOM cells the handlers write:
`uploadRole`/`searchRole`/`selectedFile` (script.js lines 377-379), the
upload-zone caption, the loading/answer visibility, the rendered answer and
the rendered upload result. -/
structure UIState where
  uploadRole : String
  searchRole : String
  selectedFile : Option JSFile
  uploadText : String
  loadingVisible : Bool
  answerVisible : Bool
  answerText : String
  sourcesShown : List SourceData
  uploadResultRendered : Option UploadData
  deriving DecidableEq, Repr

/-- Apply one DOM-mutation step to the state (toasts, requests and the
scheduled reset leave the state as is). -/
def applyStep (s : UIState) : Step → UIState
  | .setLoading b => { s with loadingVisible := b }
  | .setAnswer b => { s with answerVisible := b }
  | .renderAnswer a srcs => { s with answerText := a, sourcesShown := srcs }
  | .clearUploadResult => { s with uploadResultRendered := none }
  | .renderUploadResult d => { s with uploadResultRendered := some d }
  | _ => s

/-- Fold a trace of steps into the state it leaves behind. -/
def runSteps (s : UIState) (tr : List Step) : UIState :=
  tr.foldl applyStep s

/-- The requests a trace issues, in order. -/
def requestsOf (tr : List Step) : List Request :=
  tr.filterMap fun step => match step with
    | .request r => some r
    | _ => none

/-- The error-toast messages of a trace, in order. -/
def errorToastsOf (tr : List Step) : List String :=
  tr.filterMap fun step => match step with
    | .toast m kind => if kind = "error" then some m else none
    | _ => none

/-- JS string truthiness fallback `a || b`: the empty string is falsy. -/
def jsOr (a b : String) : String :=
  if a = "" then b else a

/-- JS fallback `data.detail || b` where `detail` may be absent (`none`). -/
def jsOrOpt (a : Option String) (b : String) : String :=
  match a with
  | none => b
  | some s => jsOr s b

/-- JS `String.prototype.trim`: strip whitespace from both ends (embedded
directly on the character list so it evaluates in the kernel). -/
def jsTrim (s : String) : String :=
  ⟨((s.data.dropWhile Char.isWhitespace).reverse.dropWhile Char.isWhitespace).reverse⟩

/-- Outcome of the environment's `fetch` for `/api/query`: the promise rejects
(network error with the rejection's message), or a response arrives whose JSON
body parses to the fields the handler reads (`detail`, `answer`, `sources`;
`detail = none` models an absent field). -/
inductive SearchOutcome where
  | networkError (msg : String)
  | response (status : Nat) (detail : Option String) (answer : String)
      (sources : List SourceData)
  deriving DecidableEq, Repr

/-- Outcome of the environment's `fetch` for `/api/upload`. -/
inductive UploadOutcome where
  | networkError (msg : String)
  | response (status : Nat) (detail : Option String) (data : UploadData)
  deriving DecidableEq, Repr

/-- Outcome of the environment's `fetch` for `/api/health`. -/
inductive HealthOutcome where
  | networkError (msg : String)
  | response (status : Nat)
  deriving DecidableEq, Repr

/-- `Response.ok` of the Fetch standard: status in the range 200-299. -/
def responseOk (status : Nat) : Bool :=
  200 ≤ status && status ≤ 299

/-- `handleFileSelect(file)` (script.js lines 457-478): bail out on a missing
file; reject non-PDF MIME types and sizes over `20 * 1024 * 1024` bytes with an
error toast, leaving the state untouched; otherwise set `selectedFile`, show
the file name in the upload zone and toast success.  (The first version at
lines 100-124 differs only in the size-error message literal.) -/
def handleFileSelect (s : UIState) (file : Option JSFile) : UIState × List Step :=
  match file with
  | none => (s, [])
  | some f =>
    if f.type ≠ "application/pdf" then
      (s, [.toast "Please select a PDF file" "error"])
    else if f.size > 20 * 1024 * 1024 then
      (s, [.toast "File exceeds 20MB limit" "error"])
    else
      ({ s with selectedFile := some f, uploadText := f.name },
       [.toast ("Selected: " ++ f.name) "success"])

/-- `handleUpload()` (script.js lines 480-525): with no `selectedFile`, only an
error toast; otherwise clear the result area, POST the form
`{file, role, doc_type}` to `/api/upload`, and on a 2xx response toast success,
render the result and schedule the 2-second reset, else toast
`data.detail || 'Upload failed'` (also used for a rejected fetch, via
`error.message || 'Upload failed'`).  `docTypeVal` is the `docType` select's
current value; `out` is the environment's response.  (The first version at
lines 126-174 differs only in message literals.) -/
def handleUpload (s : UIState) (docTypeVal : String) (out : UploadOutcome) :
    List Step :=
  match s.selectedFile with
  | none => [.toast "Please select a PDF first" "error"]
  | some f =>
    let req : Request :=
      { url := API_BASE ++ "/api/upload", method := "POST", headers := [],
        body := .form [("file", .file f), ("role", .str s.uploadRole),
                       ("doc_type", .str docTypeVal)] }
    [.clearUploadResult, .request req] ++
    match out with
    | .networkError msg => [.toast (jsOr msg "Upload failed") "error"]
    | .response status detail data =>
      if responseOk status then
        [.toast "Upload successful!" "success", .renderUploadResult data,
         .scheduleReset]
      else
        [.toast (jsOrOpt detail "Upload failed") "error"]

/-- `displayAnswer(data)` (script.js lines 620-641): hide the loading state,
show the answer container, render the answer text and the sources list. -/
def displayAnswer (answer : String) (sources : List SourceData) : List Step :=
  [.setLoading false, .setAnswer true, .renderAnswer answer sources]

/-- `handleSearch()` (script.js lines 585-618): with an input that trims
empty, only an error toast; otherwise show the loading state, hide the answer,
POST JSON `{query, role}` to `/api/query`, and on a 2xx response display the
answer, else toast `data.detail || 'Search failed'` (also used for a rejected
fetch) and hide the loading state.  (The first version at lines 236-272
differs only in the fallback literal.) -/
def handleSearch (s : UIState) (queryVal : String) (out : SearchOutcome) :
    List Step :=
  let query := jsTrim queryVal
  if query = "" then
    [.toast "Please enter a question" "error"]
  else
    let req : Request :=
      { url := API_BASE ++ "/api/query", method := "POST",
        headers := [("Content-Type", "application/json")],
        body := .json [("query", query), ("role", s.searchRole)] }
    [.setLoading true, .setAnswer false, .request req] ++
    match out with
    | .networkError msg =>
      [.toast (jsOr msg "Search failed") "error", .setLoading false]
    | .response status detail answer sources =>
      if responseOk status then
        displayAnswer answer sources
      else
        [.toast (jsOrOpt detail "Search failed") "error", .setLoading false]

/-- A clicked role chip: its `data-role` value and its `data-target`
attribute (`none` when absent). -/
structure Chip where
  role : String
  target : Option String
  deriving DecidableEq, Repr

/-- The `data-target || 'upload'` default of the chip click handler. -/
def chipTarget (c : Chip) : String :=
  match c.target with
  | none => "upload"
  | some t => jsOr t "upload"

/-- The chip click handler installed by `initializeRoleButtons` (script.js
lines 549-568): update `searchRole` when the resolved target is `'search'`,
`uploadRole` otherwise; nothing else changes. -/
def chipClick (s : UIState) (c : Chip) : UIState :=
  if chipTarget c = "search" then
    { s with searchRole := c.role }
  else
    { s with uploadRole := c.role }

/-- The `GET /api/health` request of `checkBackendHealth`. -/
def healthRequest : Request :=
  { url := API_BASE ++ "/api/health", method := "GET", headers := [],
    body := .empty }

/-- How `checkBackendHealth` reports the backend (console.log "healthy" vs
console.warn/console.error). -/
inductive HealthReport where
  | healthy
  | unhealthy
  deriving DecidableEq, Repr

/-- `checkBackendHealth()` (script.js lines 647-660): healthy when
`response.ok`, unhealthy otherwise; a rejected fetch additionally shows an
error toast. -/
def checkBackendHealth (out : HealthOutcome) : HealthReport × List Step :=
  match out with
  | .networkError _ =>
    (.unhealthy, [.request healthRequest, .toast "Backend connection issue" "error"])
  | .response status =>
    if responseOk status then (.healthy, [.request healthRequest])
    else (.unhealthy, [.request healthRequest])

/-- The data-dependent detail lines of the FIRST script version's EARLIER
`displayUploadResult` (lines 176-192): filename, chunk count, access level —
no `text_length`. -/
def displayUploadResult_v1_early (d : UploadData) : List String :=
  ["📄 <strong>" ++ d.filename ++ "</strong>",
   "📊 " ++ toString d.chunks_created ++ " chunks created",
   "🔒 Access level: " ++ d.doc_type]

/-- The detail lines of the FIRST script version's LATER `displayUploadResult`
(lines 325-343): all four response fields. -/
def displayUploadResult_v1_late (d : UploadData) : List String :=
  ["📄 " ++ d.filename,
   "📊 " ++ toString d.chunks_created ++ " chunks created",
   "📝 " ++ toString d.text_length ++ " characters processed",
   "🔒 " ++ d.doc_type ++ " access level"]

/-- The `displayUploadResult` that actually executes in the first script
version: JS function declarations hoist and the later declaration of the same
name overwrites the earlier, so the lines 325-343 definition wins. -/
def displayUploadResult_v1 : UploadData → List String :=
  displayUploadResult_v1_late

/-- The detail lines of the SECOND script version's only `displayUploadResult`
(lines 527-543): filename, chunk count, access — no `text_length`. -/
def displayUploadResult_v2 (d : UploadData) : List String :=
  ["📄 <strong>" ++ d.filename ++ "</strong>",
   "📊 " ++ toString d.chunks_created ++ " chunks created",
   "🔒 Access: " ++ d.doc_type]

/-- A rendered value appears somewhere in the rendered lines (as a substring
of some line). -/
def rendersVal (lines : List String) (v : String) : Prop :=
  ∃ line ∈ lines, v.data <:+: line.data

instance (lines : List String) (v : String) : Decidable (rendersVal lines v) := by
  unfold rendersVal
  infer_instance

end MiniRag

namespace MiniRag.Backend

/-!
Modelled from the spec: the repository contains no backend implementation
(spec §1: "the backend is explicitly described as 'to be rebuilt from
scratch'"), so the retrieval core below — chunk records, the vector index's
filtered search (§4.3), the role→tags resolution (§4.4) and `retrieve`
(§4.5) — is built from the specification's words, not from source code.
-/

/-- Modelled from the spec (§3 Data model): a chunk record as stored in the
vector index.  Embedding entries are rationals standing in for the spec's
floats; the similarity metric is a parameter below. -/
structure Chunk where
  id : Nat
  document_id : Nat
  text : String
  page : Option Nat
  embedding : List ℚ
  access_tag : String
  deriving DecidableEq, Repr

/-- Modelled from the spec (§3): a search result — a chunk reference plus its
similarity score. -/
structure SearchResult where
  chunk : Chunk
  similarity_score : ℚ
  deriving DecidableEq, Repr

/-- Modelled from the spec (§4.3): the vector index holds chunk records in
insertion order with a configured dimension. -/
structure VectorIndex where
  dim : Nat
  chunks : List Chunk
  deriving DecidableEq, Repr

/-- Insert a result into a list already sorted by score descending, keeping it
after every earlier-inserted result of equal score. -/
def insertRanked (r : SearchResult) : List SearchResult → List SearchResult
  | [] => [r]
  | x :: xs =>
    if r.similarity_score ≥ x.similarity_score then r :: x :: xs
    else x :: insertRanked r xs

/-- Stable sort by similarity descending (ties keep insertion order, earlier
first), per the §4.3 `search` contract. -/
def rankDesc : List SearchResult → List SearchResult
  | [] => []
  | x :: xs => insertRanked x (rankDesc xs)

/-- Modelled from the spec (§4.3 `search`): only chunks whose `access_tag` is
in `allowed` are considered at all; the visible chunks are scored by the
similarity metric `sim` against the query vector, sorted by score descending
with ties in insertion order, and truncated to `k`.  `sim` abstracts the
cosine metric (whose square-root normalization is not rational); the access
filter is independent of it. -/
def VectorIndex.search (idx : VectorIndex) (query_vector : List ℚ) (k : Nat)
    (allowed : List String) (sim : List ℚ → List ℚ → ℚ) : List SearchResult :=
  let visible := idx.chunks.filter fun c => allowed.contains c.access_tag
  let scored := visible.map fun c =>
    SearchResult.mk c (sim query_vector c.embedding)
  (rankDesc scored).take k

/-- Modelled from the spec (§4.4): the configured role→permitted-tags mapping;
an unrecognized role resolves to `none` (surfaced as `UnknownRoleError`). -/
def allowed_tags (config : List (String × List String)) (role : String) :
    Option (List String) :=
  match config.find? (fun p => p.1 = role) with
  | some p => some p.2
  | none => none

/-- Modelled from the spec (§7 error taxonomy, the parts `retrieve` can
raise). -/
inductive RagError where
  | unknownRoleError
  | embeddingError
  deriving DecidableEq, Repr

/-- Modelled from the spec (§4.5 `retrieve`): resolve `allowed_tags(role)` —
failing with `UnknownRoleError` before any search when the role is unknown —
then embed the query and search the index under that filter, returning the
results unmodified. -/
def retrieve (config : List (String × List String)) (idx : VectorIndex)
    (embed : String → List ℚ) (sim : List ℚ → List ℚ → ℚ)
    (query_text role : String) (k : Nat) :
    Except RagError (List SearchResult) :=
  match allowed_tags config role with
  | none => .error .unknownRoleError
  | some tags => .ok (idx.search (embed query_text) k tags sim)

end MiniRag.Backend

namespace MiniRag

/-- A concrete initial state matching the module-level initializers of
script.js (roles 'Employee', no file selected). -/
def sampleState : UIState :=
  { uploadRole := "Employee", searchRole := "Employee", selectedFile := none,
    uploadText := "Drag & drop PDF here", loadingVisible := false,
    answerVisible := false, answerText := "", sourcesShown := [],
    uploadResultRendered := none }

/-- C1: a file passed to `handleFileSelect` is accepted as the pending upload
(`selectedFile` set to it, its name shown in the upload zone, success toast)
iff its MIME type is 'application/pdf' and its size is at most
`20 * 1024 * 1024` bytes; otherwise the state is unchanged and the only
effect is an error toast.  A file of exactly `20 * 1024 * 1024` bytes passes
the strict `>` check (see the witness). -/
theorem fileSelect_accept_iff_pdf_le_20mb (s : UIState) (f : JSFile) :
    (((handleFileSelect s (some f)).1.selectedFile = some f ∧
      (handleFileSelect s (some f)).1.uploadText = f.name ∧
      (handleFileSelect s (some f)).2 =
        [.toast ("Selected: " ++ f.name) "success"]) ↔
     (f.type = "application/pdf" ∧ f.size ≤ 20 * 1024 * 1024)) ∧
    (¬ (f.type = "application/pdf" ∧ f.size ≤ 20 * 1024 * 1024) →
      (handleFileSelect s (some f)).1 = s ∧
      ∃ m, (handleFileSelect s (some f)).2 = [.toast m "error"]) := by
  by_cases ht : f.type = "application/pdf"
  · by_cases hs : f.size ≤ 20 * 1024 * 1024
    · simp [handleFileSelect, ht, Nat.not_lt.mpr hs, hs]
    · have hgt : 20 * 1024 * 1024 < f.size := Nat.not_le.mp hs
      simp [handleFileSelect, ht, hgt, hs]
    
  · simp [handleFileSelect, ht]

/-- Witness for C1: a PDF of exactly `20 * 1024 * 1024` bytes is accepted. -/
theorem fileSelect_accept_iff_pdf_le_20mb_witness :
    ("application/pdf" = "application/pdf" ∧
      20971520 ≤ 20 * 1024 * 1024) ∧
    (handleFileSelect sampleState
        (some ⟨"big.pdf", "application/pdf", 20971520⟩)).1.selectedFile =
      some ⟨"big.pdf", "application/pdf", 20971520⟩ :=
  ⟨⟨rfl, by norm_num⟩,
   ((fileSelect_accept_iff_pdf_le_20mb sampleState
       ⟨"big.pdf", "application/pdf", 20971520⟩).1.mpr
     ⟨rfl, by norm_num⟩).1⟩

/-- C9: a chip click updates exactly one role variable — `searchRole` when the
chip's `data-target` is 'search', `uploadRole` in every other case (an absent
or empty `data-target` defaults to 'upload') — and leaves every other state
cell, in particular `selectedFile` and the other role, unchanged. -/
theorem chipClick_updates_single_role (s : UIState) (c : Chip) :
    (c.target = some "search" →
      chipClick s c = { s with searchRole := c.role }) ∧
    (c.target ≠ some "search" →
      chipClick s c = { s with uploadRole := c.role }) ∧
    (chipClick s c).selectedFile = s.selectedFile := by
  refine ⟨?_, ?_, ?_⟩
  · intro h
    simp [chipClick, chipTarget, h, jsOr]
  · intro h
    have hne : chipTarget c ≠ "search" := by
      unfold chipTarget
      cases hc : c.target with
      | none => decide
      | some t =>
        unfold jsOr
        by_cases h0 : t = ""
        · simp [h0]
        · simp only [if_neg h0]
          exact fun heq => h (hc.trans (by rw [heq]))
    simp [chipClick, hne]
  · unfold chipClick
    by_cases h : chipTarget c = "search" <;> simp [h]

/-- Witness for C9: clicking a search-targeted HR chip sets `searchRole`. -/
theorem chipClick_updates_single_role_witness :
    ((some "search" : Option String) = some "search") ∧
    chipClick sampleState ⟨"HR", some "search"⟩ =
      { sampleState with searchRole := "HR" } :=
  ⟨rfl, (chipClick_updates_single_role sampleState ⟨"HR", some "search"⟩).1 rfl⟩

/-- C10: `handleUpload` with no selected file, and `handleSearch` with a query
that trims empty, issue no request and leave the whole state unchanged; the
sole effect is one error toast. -/
theorem empty_inputs_no_request_no_change (s s2 : UIState) (dt q : String)
    (uo : UploadOutcome) (so : SearchOutcome)
    (h1 : s.selectedFile = none) (h2 : jsTrim q = "") :
    handleUpload s dt uo = [.toast "Please select a PDF first" "error"] ∧
    runSteps s (handleUpload s dt uo) = s ∧
    handleSearch s2 q so = [.toast "Please enter a question" "error"] ∧
    runSteps s2 (handleSearch s2 q so) = s2 := by
  have hu : handleUpload s dt uo =
      [.toast "Please select a PDF first" "error"] := by
    unfold handleUpload
    rw [h1]
  have hq : handleSearch s2 q so =
      [.toast "Please enter a question" "error"] := by
    simp [handleSearch, h2]
  exact ⟨hu, by rw [hu]; rfl, hq, by rw [hq]; rfl⟩

/-- Witness for C10: no file selected and an all-whitespace query. -/
theorem empty_inputs_no_request_no_change_witness :
    (sampleState.selectedFile = none ∧ jsTrim "   " = "") ∧
    handleUpload sampleState "Public" (.networkError "down") =
      [.toast "Please select a PDF first" "error"] :=
  ⟨⟨rfl, by decide⟩,
   (empty_inputs_no_request_no_change sampleState sampleState "Public" "   "
      (.networkError "down") (.networkError "down") rfl (by decide)).1⟩

/-- C8 counterexample: the claim says healthy iff status exactly 200, but
`checkBackendHealth` branches on `response.ok`, which covers all of 200-299 —
a 204 response is reported healthy. -/
theorem health_204_reported_healthy :
    (checkBackendHealth (.response 204)).1 = .healthy ∧ 204 ≠ 200 :=
  ⟨rfl, by decide⟩

/-- C8 amended: `checkBackendHealth` reports healthy iff the response status
is in 200-299 (`response.ok`), regardless of body; a non-2xx response or a
rejected fetch is reported unhealthy, and a rejected fetch additionally shows
an error toast. -/
theorem health_ok_iff_2xx (out : HealthOutcome) :
    ((checkBackendHealth out).1 = .healthy ↔
      ∃ status, out = .response status ∧ responseOk status = true) ∧
    (∀ m, out = .networkError m →
      (checkBackendHealth out).1 = .unhealthy ∧
      errorToastsOf (checkBackendHealth out).2 ≠ []) := by
  cases out with
  | networkError m =>
    refine ⟨?_, ?_⟩
    · simp [checkBackendHealth]
    · intro m' _
      exact ⟨rfl, List.cons_ne_nil _ _⟩
  | response st =>
    refine ⟨?_, ?_⟩
    · by_cases h : responseOk st = true
      · simp [checkBackendHealth, h]
      · simp [checkBackendHealth, h]
    · intro m hm
      exact absurd hm (by simp)

/-- Witness for C8 (amended): a 250 response is reported healthy. -/
theorem health_ok_iff_2xx_witness :
    ((HealthOutcome.response 250) = .response 250 ∧ responseOk 250 = true) ∧
    (checkBackendHealth (.response 250)).1 = .healthy :=
  ⟨⟨rfl, rfl⟩, (health_ok_iff_2xx (.response 250)).1.mpr ⟨250, rfl, rfl⟩⟩

/-- A value sandwiched between two literals occurs in a rendered line. -/
theorem rendersVal_intro (p v q : String) (lines : List String)
    (h : (p ++ v ++ q) ∈ lines) : rendersVal lines v :=
  ⟨p ++ v ++ q, h, ⟨p.data, q.data, by simp⟩⟩

/-- Concrete 2xx upload response body used for the C7 counterexample. -/
def sampleUpload : UploadData :=
  { filename := "doc.pdf", chunks_created := 7, text_length := 31415,
    doc_type := "HR" }

/-- C7 counterexample: the second script version's `displayUploadResult`
(lines 527-543) omits `text_length` — the value 31415 appears nowhere in its
rendered lines. -/
theorem uploadResult_v2_omits_text_length :
    ¬ rendersVal (displayUploadResult_v2 sampleUpload)
        (toString sampleUpload.text_length) := by decide

/-- C7 amended: in the first script version the later `displayUploadResult`
(lines 325-343) shadows the earlier declaration and is the one that executes,
and it renders all four response fields; the second version's
`displayUploadResult` renders filename, chunks_created and doc_type only. -/
theorem uploadResult_rendered_fields (d : UploadData) :
    displayUploadResult_v1 = displayUploadResult_v1_late ∧
    rendersVal (displayUploadResult_v1 d) d.filename ∧
    rendersVal (displayUploadResult_v1 d) (toString d.chunks_created) ∧
    rendersVal (displayUploadResult_v1 d) (toString d.text_length) ∧
    rendersVal (displayUploadResult_v1 d) d.doc_type ∧
    rendersVal (displayUploadResult_v2 d) d.filename ∧
    rendersVal (displayUploadResult_v2 d) (toString d.chunks_created) ∧
    rendersVal (displayUploadResult_v2 d) d.doc_type := by
  refine ⟨rfl, ?_, ?_, ?_, ?_, ?_, ?_, ?_⟩
  · exact rendersVal_intro "📄 " d.filename "" _ (by
      simp [displayUploadResult_v1, displayUploadResult_v1_late])
  · exact rendersVal_intro "📊 " (toString d.chunks_created) " chunks created" _
      (by simp [displayUploadResult_v1, displayUploadResult_v1_late])
  · exact rendersVal_intro "📝 " (toString d.text_length)
      " characters processed" _
      (by simp [displayUploadResult_v1, displayUploadResult_v1_late])
  · exact rendersVal_intro "🔒 " d.doc_type " access level" _
      (by simp [displayUploadResult_v1, displayUploadResult_v1_late])
  · exact rendersVal_intro "📄 <strong>" d.filename "</strong>" _
      (by simp [displayUploadResult_v2])
  · exact rendersVal_intro "📊 " (toString d.chunks_created) " chunks created" _
      (by simp [displayUploadResult_v2])
  · exact rendersVal_intro "🔒 Access: " d.doc_type "" _
      (by simp [displayUploadResult_v2])

end MiniRag

namespace MiniRag

/-- The file used by the request/upload witnesses. -/
def sampleFile : JSFile :=
  { name := "a.pdf", type := "application/pdf", size := 100 }

/-- A state with a file pending upload. -/
def sampleStateWithFile : UIState :=
  { sampleState with selectedFile := some sampleFile }

/-- C3: whenever the query input trims to a non-empty string, `handleSearch`
issues exactly one request — a POST to `${API_BASE}/api/query` with a
'Content-Type: application/json' header whose JSON body holds exactly the two
fields `query` (the trimmed input) and `role` (the current `searchRole`) —
whatever the outcome of the fetch. -/
theorem search_single_query_request (s : UIState) (q : String)
    (out : SearchOutcome) (h : jsTrim q ≠ "") :
    requestsOf (handleSearch s q out) =
      [{ url := API_BASE ++ "/api/query", method := "POST",
         headers := [("Content-Type", "application/json")],
         body := .json [("query", jsTrim q), ("role", s.searchRole)] }] := by
  cases out with
  | networkError m =>
    simp [handleSearch, h, requestsOf]
  | response st d a srcs =>
    by_cases hok : responseOk st = true <;>
      simp [handleSearch, h, hok, requestsOf, displayAnswer]

/-- Witness for C3 at the query " hi " against a rejected fetch. -/
theorem search_single_query_request_witness :
    jsTrim " hi " ≠ "" ∧
    requestsOf (handleSearch sampleState " hi " (.networkError "down")) =
      [{ url := API_BASE ++ "/api/query", method := "POST",
         headers := [("Content-Type", "application/json")],
         body := .json [("query", jsTrim " hi "),
                        ("role", sampleState.searchRole)] }] :=
  ⟨by decide,
   search_single_query_request sampleState " hi " (.networkError "down")
     (by decide)⟩

/-- C4: whenever a file is pending, `handleUpload` issues exactly one request —
a POST to `${API_BASE}/api/upload` whose multipart form body holds exactly the
three fields `file` (the selected file), `role` (the current `uploadRole`) and
`doc_type` (the current docType selection) — whatever the outcome of the
fetch. -/
theorem upload_single_request_three_fields (s : UIState) (f : JSFile)
    (dt : String) (out : UploadOutcome) (h : s.selectedFile = some f) :
    requestsOf (handleUpload s dt out) =
      [{ url := API_BASE ++ "/api/upload", method := "POST", headers := [],
         body := .form [("file", .file f), ("role", .str s.uploadRole),
                        ("doc_type", .str dt)] }] := by
  cases out with
  | networkError m =>
    simp [handleUpload, h, requestsOf]
  | response st d data =>
    by_cases hok : responseOk st = true <;>
      simp [handleUpload, h, hok, requestsOf]

/-- Witness for C4 with a pending 100-byte PDF. -/
theorem upload_single_request_three_fields_witness :
    sampleStateWithFile.selectedFile = some sampleFile ∧
    requestsOf (handleUpload sampleStateWithFile "Employee"
        (.networkError "down")) =
      [{ url := API_BASE ++ "/api/upload", method := "POST", headers := [],
         body := .form [("file", .file sampleFile),
                        ("role", .str sampleStateWithFile.uploadRole),
                        ("doc_type", .str "Employee")] }] :=
  ⟨rfl,
   upload_single_request_three_fields sampleStateWithFile sampleFile
     "Employee" (.networkError "down") rfl⟩

/-- C5: a non-2xx search or upload response yields exactly one error toast
whose message is the body's `detail` when that is a non-empty string and the
generic fallback otherwise, and no success result is rendered: the answer
container ends hidden and nothing is rendered into it, and the upload result
area ends cleared. -/
theorem non2xx_detail_error_toast (s s2 : UIState) (q dt : String)
    (f : JSFile) (st st2 : Nat) (d d2 : Option String) (a : String)
    (srcs : List SourceData) (data : UploadData)
    (hq : jsTrim q ≠ "") (hok : responseOk st = false)
    (hf : s2.selectedFile = some f) (hok2 : responseOk st2 = false) :
    (errorToastsOf (handleSearch s q (.response st d a srcs)) =
        [jsOrOpt d "Search failed"] ∧
      (∀ x y, Step.renderAnswer x y ∉ handleSearch s q (.response st d a srcs)) ∧
      (runSteps s (handleSearch s q (.response st d a srcs))).answerVisible =
        false) ∧
    (errorToastsOf (handleUpload s2 dt (.response st2 d2 data)) =
        [jsOrOpt d2 "Upload failed"] ∧
      (∀ x, Step.renderUploadResult x ∉
          handleUpload s2 dt (.response st2 d2 data)) ∧
      (runSteps s2 (handleUpload s2 dt
          (.response st2 d2 data))).uploadResultRendered = none) ∧
    (∀ o m, o = some m → m ≠ "" → jsOrOpt o "Search failed" = m) ∧
    (∀ o : Option String, o = none ∨ o = some "" →
      jsOrOpt o "Search failed" = "Search failed") := by
  have hoknot : ¬ responseOk st = true := by simp [hok]
  have hoknot2 : ¬ responseOk st2 = true := by simp [hok2]
  refine ⟨⟨?_, ?_, ?_⟩, ⟨?_, ?_, ?_⟩, ?_, ?_⟩
  · simp [handleSearch, hq, hoknot, errorToastsOf]
  · intro x y
    simp [handleSearch, hq, hoknot]
  · simp [handleSearch, hq, hoknot, runSteps, applyStep]
  · simp [handleUpload, hf, hoknot2, errorToastsOf]
  · intro x
    simp [handleUpload, hf, hoknot2]
  · simp [handleUpload, hf, hoknot2, runSteps, applyStep]
  · intro o m ho hm
    simp [ho, jsOrOpt, jsOr, hm]
  · intro o ho
    rcases ho with ho | ho <;> simp [ho, jsOrOpt, jsOr]

/-- Witness for C5: a 500 response carrying detail "No access" on both
endpoints. -/
theorem non2xx_detail_error_toast_witness :
    (jsTrim "query" ≠ "" ∧ responseOk 500 = false ∧
      sampleStateWithFile.selectedFile = some sampleFile) ∧
    errorToastsOf (handleSearch sampleState "query"
        (.response 500 (some "No access") "" [])) =
      [jsOrOpt (some "No access") "Search failed"] :=
  ⟨⟨by decide, rfl, rfl⟩,
   (non2xx_detail_error_toast sampleState sampleStateWithFile "query"
      "Employee" sampleFile 500 500 (some "No access") (some "No access") ""
      [] sampleUpload (by decide) rfl rfl rfl).1.1⟩

/-- C6: every `handleSearch` run that issues a request follows
loading → success/error: the trace begins by showing the loading state and
hiding the answer container, the run ends with the loading state hidden, and
exactly one of (a) the answer container visible with the response's answer
and sources rendered and no error toast, or (b) an error toast with the
answer container still hidden and nothing rendered. -/
theorem search_loading_state_machine (s : UIState) (q : String)
    (out : SearchOutcome) (h : jsTrim q ≠ "") :
    (handleSearch s q out).take 2 = [.setLoading true, .setAnswer false] ∧
    requestsOf (handleSearch s q out) ≠ [] ∧
    (runSteps s (handleSearch s q out)).loadingVisible = false ∧
    ((∃ st d a srcs, out = .response st d a srcs ∧ responseOk st = true ∧
        Step.renderAnswer a srcs ∈ handleSearch s q out ∧
        (runSteps s (handleSearch s q out)).answerVisible = true ∧
        (runSteps s (handleSearch s q out)).answerText = a ∧
        (runSteps s (handleSearch s q out)).sourcesShown = srcs ∧
        errorToastsOf (handleSearch s q out) = []) ∨
      (errorToastsOf (handleSearch s q out) ≠ [] ∧
        (runSteps s (handleSearch s q out)).answerVisible = false ∧
        ∀ a srcs, Step.renderAnswer a srcs ∉ handleSearch s q out)) := by
  cases out with
  | networkError m =>
    refine ⟨by simp [handleSearch, h], by simp [handleSearch, h, requestsOf],
      by simp [handleSearch, h, runSteps, applyStep], Or.inr ⟨?_, ?_, ?_⟩⟩
    · simp [handleSearch, h, errorToastsOf]
    · simp [handleSearch, h, runSteps, applyStep]
    · intro a srcs
      simp [handleSearch, h]
  | response st d a srcs =>
    by_cases hok : responseOk st = true
    · refine ⟨by simp [handleSearch, h, hok, displayAnswer],
        by simp [handleSearch, h, hok, requestsOf, displayAnswer],
        by simp [handleSearch, h, hok, displayAnswer, runSteps, applyStep],
        Or.inl ⟨st, d, a, srcs, rfl, hok, ?_, ?_, ?_, ?_, ?_⟩⟩
      · simp [handleSearch, h, hok, displayAnswer]
      · simp [handleSearch, h, hok, displayAnswer, runSteps, applyStep]
      · simp [handleSearch, h, hok, displayAnswer, runSteps, applyStep]
      · simp [handleSearch, h, hok, displayAnswer, runSteps, applyStep]
      · simp [handleSearch, h, hok, displayAnswer, errorToastsOf]
    · refine ⟨by simp [handleSearch, h, hok],
        by simp [handleSearch, h, hok, requestsOf],
        by simp [handleSearch, h, hok, runSteps, applyStep],
        Or.inr ⟨?_, ?_, ?_⟩⟩
      · simp [handleSearch, h, hok, errorToastsOf]
      · simp [handleSearch, h, hok, runSteps, applyStep]
      · intro x y
        simp [handleSearch, h, hok]

/-- Witness for C6: a successful query run renders the answer. -/
theorem search_loading_state_machine_witness :
    jsTrim "query" ≠ "" ∧
    (handleSearch sampleState "query"
        (.response 200 none "the answer" [])).take 2 =
      [.setLoading true, .setAnswer false] :=
  ⟨by decide,
   (search_loading_state_machine sampleState "query"
      (.response 200 none "the answer" []) (by decide)).1⟩

end MiniRag

namespace MiniRag.Backend

/-- Membership in an `insertRanked` result comes from the inserted element or
the original list. -/
theorem mem_insertRanked {x r : SearchResult} {l : List SearchResult}
    (h : x ∈ insertRanked r l) : x = r ∨ x ∈ l := by
  induction l with
  | nil =>
    simp only [insertRanked, List.mem_singleton] at h
    exact Or.inl h
  | cons y ys ih =>
    unfold insertRanked at h
    by_cases hc : r.similarity_score ≥ y.similarity_score
    · rw [if_pos hc] at h
      rcases List.mem_cons.mp h with h | h
      · exact Or.inl h
      · exact Or.inr h
    · rw [if_neg hc] at h
      rcases List.mem_cons.mp h with h | h
      · exact Or.inr (List.mem_cons.mpr (Or.inl h))
      · rcases ih h with h | h
        · exact Or.inl h
        · exact Or.inr (List.mem_cons.mpr (Or.inr h))

/-- Ranking permutes: membership in `rankDesc` implies membership in the
scored candidates. -/
theorem mem_rankDesc {x : SearchResult} {l : List SearchResult}
    (h : x ∈ rankDesc l) : x ∈ l := by
  induction l with
  | nil => exact absurd h (by simp [rankDesc])
  | cons y ys ih =>
    unfold rankDesc at h
    rcases mem_insertRanked h with h | h
    · exact List.mem_cons.mpr (Or.inl h)
    · exact List.mem_cons.mpr (Or.inr (ih h))

/-- C2 (modelled from the spec, which the repo leaves unimplemented): for
every role with a defined role→tags mapping, `retrieve` never returns a chunk
whose `access_tag` is outside `allowed_tags(role)` — disallowed chunks are
removed from the candidate set before scoring and ranking, so the guarantee
holds for every embedder, every similarity metric, every `k` and every index
state. -/
theorem retrieve_respects_allowed_tags (config : List (String × List String))
    (idx : VectorIndex) (embed : String → List ℚ) (sim : List ℚ → List ℚ → ℚ)
    (q role : String) (k : Nat) (tags : List String) (rs : List SearchResult)
    (r : SearchResult)
    (htags : allowed_tags config role = some tags)
    (hret : retrieve config idx embed sim q role k = .ok rs)
    (hr : r ∈ rs) : tags.contains r.chunk.access_tag = true := by
  unfold retrieve at hret
  rw [htags] at hret
  injection hret with hrs
  subst hrs
  simp only [VectorIndex.search] at hr
  have h1 := List.mem_of_mem_take hr
  have h2 := mem_rankDesc h1
  rcases List.mem_map.mp h2 with ⟨c, hc, hrc⟩
  have h3 := (List.mem_filter.mp hc).2
  rw [← hrc]
  exact h3

/-- Chunk visible to Employee in the C2 witness index. -/
def sampleChunkE : Chunk :=
  { id := 1, document_id := 1, text := "alpha", page := some 1,
    embedding := [1], access_tag := "Employee" }

/-- Chunk visible to HR only in the C2 witness index. -/
def sampleChunkH : Chunk :=
  { id := 2, document_id := 2, text := "beta", page := none,
    embedding := [1], access_tag := "HR" }

/-- Two-chunk index for the C2 witness. -/
def sampleIndex : VectorIndex :=
  { dim := 1, chunks := [sampleChunkE, sampleChunkH] }

/-- Role configuration for the C2 witness. -/
def sampleConfig : List (String × List String) :=
  [("Employee", ["Employee"]), ("HR", ["HR", "Employee"])]

/-- Witness for C2: on a mixed Employee/HR index, an Employee retrieve
returns one result and its tag is allowed. -/
theorem retrieve_respects_allowed_tags_witness :
    (allowed_tags sampleConfig "Employee" = some ["Employee"] ∧
      retrieve sampleConfig sampleIndex (fun _ => [1]) (fun _ _ => 1) "q"
          "Employee" 5 =
        .ok [SearchResult.mk sampleChunkE 1] ∧
      SearchResult.mk sampleChunkE 1 ∈ [SearchResult.mk sampleChunkE 1]) ∧
    (["Employee"].contains (SearchResult.mk sampleChunkE 1).chunk.access_tag =
      true) :=
  ⟨⟨rfl, rfl, List.mem_singleton.mpr rfl⟩,
   retrieve_respects_allowed_tags sampleConfig sampleIndex (fun _ => [1])
     (fun _ _ => 1) "q" "Employee" 5 ["Employee"]
     [SearchResult.mk sampleChunkE 1] (SearchResult.mk sampleChunkE 1) rfl rfl
     (List.mem_singleton.mpr rfl)⟩

end MiniRag.Backend
